import Mathlib

/-!
Verification of the victorsmartkill Home Assistant integration.

The development shallowly embeds the coordinator update cycle
(`custom_components/victorsmartkill/__init__.py`), the entity adapter base
class (`entity.py`) and the binary sensor (`binary_sensor.py`) and proves
the specified properties about them.
-/

/-- Statistics sub-record of a trap, as read by the integration
(`trap.trapstatistics` fields used in `entity.py` and `binary_sensor.py`).
Timestamps are modelled as integers (epoch instants). -/
structure TrapStatistics where
  kills_present : Int
  battery_level : Int
  board_type : String
  firmware_version : String
  last_report_date : Int
  last_kill_date : Int
  deriving DecidableEq, Repr

/-- A trap record of the `victor_smart_kill` client, restricted to the fields
this integration reads. Latitude/longitude are modelled as integers since no
claim depends on their numeric interpretation. -/
structure Trap where
  id : Int
  name : String
  serial_number : String
  ssid : String
  lat : Int
  long : Int
  trap_type_verbose : String
  trapstatistics : TrapStatistics
  deriving DecidableEq, Repr

/-- Modelled from the spec: `EVENT_TRAP_LIST_CHANGED` is declared in
`const.py`, which is not among the provided sources; the spec only requires
it to be the (fixed) notification event type for trap-list changes. -/
def EVENT_TRAP_LIST_CHANGED : String := "victorsmartkill_trap_list_changed"

/-- An event fired on the Home Assistant bus:
`hass.bus.async_fire(event_type, event_data)` where the event data is a
dictionary from string keys to lists of trap ids. -/
structure FiredEvent where
  event_type : String
  event_data : List (String × List Int)
  deriving DecidableEq, Repr

/-- Python truthiness of `self.data` in `if not self.data:`: the coordinator
data is `None` before the first successful refresh and a list afterwards;
`not data` is true exactly for `None` and the empty list. -/
def dataFalsy : Option (List Trap) → Bool
  | none => true
  | some l => l.isEmpty

/-- Python `sorted` on a list of integers: the ascending sorted permutation
(modelled with insertion sort, which computes exactly that list). -/
def pySorted (l : List Int) : List Int :=
  List.insertionSort (· ≤ ·) l

/-- Errors raised by the `victor_smart_kill` API client inside
`_get_traps` (which logs and re-raises them unchanged). -/
inductive ApiError where
  | clientError (msg : String)
  deriving DecidableEq, Repr

/-- The `UpdateFailed` exception raised by `async_update_data`, wrapping the
original exception (`raise UpdateFailed(exception) from exception`). -/
inductive UpdateFailed where
  | updateFailed (wrapped : ApiError)
  deriving DecidableEq, Repr

/-- `_get_traps`: calls the API and returns its result; on error it logs and
re-raises the exception unchanged. The API call outcome is a parameter. -/
def get_traps (apiResult : Except ApiError (List Trap)) :
    Except ApiError (List Trap) :=
  apiResult

/-- `VictorSmartKillDataUpdateCoordinator.async_update_data`, embedded as a
function of the previously stored coordinator data (`self.data`) and the
outcome of the API fetch. It returns either `UpdateFailed` (wrapping the
fetch error) or the trap list to be stored, together with the list of events
fired on the bus during the update. -/
def async_update_data (data : Option (List Trap))
    (fetch : Except ApiError (List Trap)) :
    Except UpdateFailed (List Trap × List FiredEvent) :=
  let body : Except ApiError (List Trap × List FiredEvent) :=
    if dataFalsy data then
      match get_traps fetch with
      | Except.ok traps => Except.ok (traps, [])
      | Except.error e => Except.error e
    else
      let previous_trap_ids := pySorted ((data.getD []).map Trap.id)
      match get_traps fetch with
      | Except.ok traps =>
        let current_trap_ids := pySorted (traps.map Trap.id)
        if previous_trap_ids ≠ current_trap_ids then
          Except.ok (traps,
            [{ event_type := EVENT_TRAP_LIST_CHANGED,
               event_data := [("previous_traps", previous_trap_ids),
                              ("current_traps", current_trap_ids)] }])
        else
          Except.ok (traps, [])
      | Except.error e => Except.error e
  match body with
  | Except.ok r => Except.ok r
  | Except.error e => Except.error (UpdateFailed.updateFailed e)

/-- The events fired during one run of `async_update_data` (empty when the
update fails, since the fetch precedes any firing). -/
def eventsOf (r : Except UpdateFailed (List Trap × List FiredEvent)) :
    List FiredEvent :=
  match r with
  | Except.ok (_, evs) => evs
  | Except.error _ => []

/-- Sample trap statistics used for concrete evaluations. -/
def sampleStats : TrapStatistics :=
  { kills_present := 1, battery_level := 80, board_type := "A"
    firmware_version := "1.0", last_report_date := 100, last_kill_date := 50 }

/-- A sample trap with id 1. -/
def sampleTrap : Trap :=
  { id := 1, name := "kitchen", serial_number := "SN1", ssid := "wifi"
    lat := 10, long := 20, trap_type_verbose := "Smart-Kill"
    trapstatistics := sampleStats }

/-- A sample trap with id 2. -/
def sampleTrap2 : Trap :=
  { sampleTrap with id := 2, name := "garage", serial_number := "SN2" }

/-- C1: with a non-empty previous fetch result and a successful current
fetch, `async_update_data` fires the trap-list-changed event exactly when
the sorted sequences of previous and current trap ids differ; when they are
equal no event is fired. -/
theorem fires_iff_sorted_ids_differ (prevList traps : List Trap)
    (hne : prevList ≠ []) :
    eventsOf (async_update_data (some prevList) (Except.ok traps)) ≠ [] ↔
      pySorted (prevList.map Trap.id) ≠ pySorted (traps.map Trap.id) := by
  have hfalsy : dataFalsy (some prevList) = false := by
    cases prevList with
    | nil => exact absurd rfl hne
    | cons a l => simp [dataFalsy]
  simp only [async_update_data, get_traps, hfalsy, if_false, Bool.false_eq_true,
    Option.getD_some]
  by_cases h : pySorted (prevList.map Trap.id) = pySorted (traps.map Trap.id)
  · simp [h, eventsOf]
  · simp [h, eventsOf]

/-- Witness for C1 at a concrete input: previous list `[sampleTrap]`,
current fetch `[]`; the sorted id sequences differ and an event is fired. -/
theorem fires_iff_sorted_ids_differ_witness :
    eventsOf (async_update_data (some [sampleTrap]) (Except.ok [])) ≠ [] :=
  (fires_iff_sorted_ids_differ [sampleTrap] [] (by simp)).mpr (by decide)

/-- C2 counterexample: `async_update_data` performs no deduplication. With
previous data `[sampleTrap]` and a successful fetch returning `[sampleTrap]`
again, the returned list is exactly the fetched list and its element
duplicates a record of the previous fetch. -/
theorem no_dedup_counterexample :
    async_update_data (some [sampleTrap]) (Except.ok [sampleTrap]) =
      Except.ok ([sampleTrap], []) ∧ sampleTrap ∈ [sampleTrap] := by
  constructor
  · rfl
  · simp

/-- On a successful fetch, `async_update_data` succeeds and returns exactly
the fetched list (shared helper). -/
lemma update_ok_exists (data : Option (List Trap))
    (traps : List Trap) :
    ∃ evs, async_update_data data (Except.ok traps) = Except.ok (traps, evs) := by
  unfold async_update_data get_traps
  by_cases hf : dataFalsy data
  · exact ⟨[], by simp [hf]⟩
  · by_cases h : pySorted ((data.getD []).map Trap.id) = pySorted (traps.map Trap.id)
    · exact ⟨[], by simp [hf, h]⟩
    · exact ⟨[{ event_type := EVENT_TRAP_LIST_CHANGED,
                event_data :=
                  [("previous_traps", pySorted ((data.getD []).map Trap.id)),
                   ("current_traps", pySorted (traps.map Trap.id))] }],
        by simp [hf, h]⟩

/-- C3: whenever `async_update_data` fires an event, that event is the
trap-list-changed event and its payload maps `"previous_traps"` to the
sorted ids of the previously stored data and `"current_traps"` to the
sorted ids of the returned (currently fetched) list. -/
theorem fired_event_payload (data : Option (List Trap))
    (fetch : Except ApiError (List Trap)) (out : List Trap)
    (evs : List FiredEvent) (ev : FiredEvent)
    (hupd : async_update_data data fetch = Except.ok (out, evs))
    (hmem : ev ∈ evs) :
    ev.event_type = EVENT_TRAP_LIST_CHANGED ∧
      ev.event_data =
        [("previous_traps", pySorted ((data.getD []).map Trap.id)),
         ("current_traps", pySorted (out.map Trap.id))] := by
  unfold async_update_data get_traps at hupd
  by_cases hf : dataFalsy data
  · cases fetch with
    | ok traps =>
      simp [hf] at hupd
      rcases hupd with ⟨h1, h2⟩
      subst h2
      simp at hmem
    | error e => simp [hf] at hupd
  · cases fetch with
    | ok traps =>
      by_cases h : pySorted ((data.getD []).map Trap.id) = pySorted (traps.map Trap.id)
      · simp [hf, h] at hupd
        rcases hupd with ⟨h1, h2⟩
        subst h2
        simp at hmem
      · simp only [hf, if_false, Bool.false_eq_true] at hupd
        simp [h] at hupd
        rcases hupd with ⟨h1, h2⟩
        subst h1
        subst h2
        simp at hmem
        subst hmem
        exact ⟨rfl, rfl⟩
    | error e =>
      simp only [hf, if_false, Bool.false_eq_true] at hupd
      simp at hupd

/-- C2 amended: on a successful fetch the coordinator returns the fetched
list unchanged; no deduplication against the previous results is performed. -/
theorem update_returns_fetched_list (data : Option (List Trap))
    (traps : List Trap) :
    ∃ evs, async_update_data data (Except.ok traps) = Except.ok (traps, evs) :=
  update_ok_exists data traps

/-- Witness for C3 at a concrete input: previous data `[sampleTrap]`,
current fetch `[sampleTrap2]`; the single fired event carries the sorted
previous ids `[1]` and current ids `[2]`. -/
theorem fired_event_payload_witness :
    FiredEvent.event_type
        ⟨EVENT_TRAP_LIST_CHANGED,
         [("previous_traps", [(1 : Int)]), ("current_traps", [(2 : Int)])]⟩ =
      EVENT_TRAP_LIST_CHANGED ∧
    FiredEvent.event_data
        ⟨EVENT_TRAP_LIST_CHANGED,
         [("previous_traps", [(1 : Int)]), ("current_traps", [(2 : Int)])]⟩ =
      [("previous_traps", pySorted (((some [sampleTrap]).getD []).map Trap.id)),
       ("current_traps", pySorted ([sampleTrap2].map Trap.id))] :=
  fired_event_payload (some [sampleTrap]) (Except.ok [sampleTrap2])
    [sampleTrap2]
    [⟨EVENT_TRAP_LIST_CHANGED,
      [("previous_traps", [(1 : Int)]), ("current_traps", [(2 : Int)])]⟩]
    ⟨EVENT_TRAP_LIST_CHANGED,
     [("previous_traps", [(1 : Int)]), ("current_traps", [(2 : Int)])]⟩
    rfl (by simp)

/-- C4: when the previous coordinator data is absent (`None`) or the empty
list, `async_update_data` fires no event, whatever the current fetch
returns — in particular going from zero traps to some traps is silent. -/
theorem no_event_when_no_previous (data : Option (List Trap))
    (fetch : Except ApiError (List Trap)) (h : dataFalsy data = true) :
    eventsOf (async_update_data data fetch) = [] := by
  unfold async_update_data get_traps eventsOf
  cases fetch <;> simp [h]

/-- Witness for C4 at a concrete input: previous data the empty list, fetch
returning one trap; no event is fired. -/
theorem no_event_when_no_previous_witness :
    dataFalsy (some []) = true ∧
      eventsOf (async_update_data (some []) (Except.ok [sampleTrap])) = [] :=
  ⟨rfl, no_event_when_no_previous (some []) (Except.ok [sampleTrap]) rfl⟩

/-- The state of the coordinator as managed by the host framework: the
stored trap list (`self.data`, `None` before the first success), the update
interval passed at construction, and the last-update-success flag. -/
structure CoordinatorState where
  data : Option (List Trap)
  update_interval : Int
  last_update_success : Bool
  deriving DecidableEq, Repr

/-- Modelled from the spec: the host-framework coordinator refresh cycle
(`DataUpdateCoordinator` is host code outside this repository). One refresh
runs `async_update_data`; on success it stores the returned list as the new
data, on `UpdateFailed` it keeps the stored data and records the failure.
The fired events are returned alongside the new state. -/
def coordinatorStep (st : CoordinatorState)
    (fetch : Except ApiError (List Trap)) :
    CoordinatorState × List FiredEvent :=
  match async_update_data st.data fetch with
  | Except.ok (traps, evs) =>
    ({ st with data := some traps, last_update_success := true }, evs)
  | Except.error _ =>
    ({ st with last_update_success := false }, [])

/-- C5: `async_update_data` raises `UpdateFailed` exactly when the fetch
raises, wrapping the original exception; a successful fetch never raises.
In the failure case no event is fired and the stored data is unchanged. -/
theorem update_failed_iff_fetch_error (data : Option (List Trap))
    (e : ApiError) (traps : List Trap) (st : CoordinatorState) :
    async_update_data data (Except.error e) =
        Except.error (UpdateFailed.updateFailed e) ∧
      (∃ out evs,
        async_update_data data (Except.ok traps) = Except.ok (out, evs)) ∧
      (coordinatorStep st (Except.error e)).1.data = st.data ∧
      (coordinatorStep st (Except.error e)).2 = [] := by
  have herr : ∀ d : Option (List Trap),
      async_update_data d (Except.error e) =
        Except.error (UpdateFailed.updateFailed e) := by
    intro d
    unfold async_update_data get_traps
    by_cases hf : dataFalsy d <;> simp [hf]
  refine ⟨herr data, ?_, ?_, ?_⟩
  · obtain ⟨evs, hevs⟩ := update_ok_exists data traps
    exact ⟨traps, evs, hevs⟩
  · simp [coordinatorStep, herr st.data]
  · simp [coordinatorStep, herr st.data]

/-- The change-detection test the code performs
(`previous_trap_ids != current_trap_ids` on the sorted id lists). -/
def codeTrapListChanged (prev cur : List Trap) : Bool :=
  decide (pySorted (prev.map Trap.id) ≠ pySorted (cur.map Trap.id))

/-- The change-detection test as the spec words it: a set-difference test on
trap ids, i.e. whether the set of previous ids differs from the set of
current ids. -/
def specSetChanged (prev cur : List Trap) : Bool :=
  decide ((prev.map Trap.id).toFinset ≠ (cur.map Trap.id).toFinset)

/-- Equality of the sorted id lists is exactly permutation (multiset
equality) of the id lists (shared helper). -/
lemma pySorted_eq_iff_perm (a b : List Int) :
    pySorted a = pySorted b ↔ a.Perm b := by
  constructor
  · intro h
    have ha := List.perm_insertionSort (· ≤ ·) a
    have hb := List.perm_insertionSort (· ≤ ·) b
    exact ha.symm.trans (by rw [pySorted] at h; rw [h]; exact hb)
  · intro h
    show List.insertionSort (· ≤ ·) a = List.insertionSort (· ≤ ·) b
    exact List.eq_of_perm_of_sorted
      ((List.perm_insertionSort (· ≤ ·) a).trans
        (h.trans (List.perm_insertionSort (· ≤ ·) b).symm))
      (List.sorted_insertionSort (· ≤ ·) a)
      (List.sorted_insertionSort (· ≤ ·) b)

/-- C6 counterexample: with a duplicated trap id in the previous list, the
code's sorted-sequence comparison says "different" (and the event fires on
a successful fetch) although the sets of trap ids are equal, so the
comparison is not the set-difference test. -/
theorem set_equiv_counterexample :
    codeTrapListChanged [sampleTrap, sampleTrap] [sampleTrap] = true ∧
      specSetChanged [sampleTrap, sampleTrap] [sampleTrap] = false ∧
      eventsOf (async_update_data (some [sampleTrap, sampleTrap])
        (Except.ok [sampleTrap])) ≠ [] := by
  refine ⟨by decide, by decide, ?_⟩
  decide

/-- C6 amended: the code's comparison of sorted id sequences is a multiset
(permutation) test on the trap ids, and it coincides with the spec's
set-difference test exactly under the additional assumption that neither
fetch contains a duplicated trap id; the firing decision of
`async_update_data` agrees with this comparison. -/
theorem sorted_comparison_is_multiset_test (prev cur : List Trap) :
    (codeTrapListChanged prev cur = false ↔
        (prev.map Trap.id).Perm (cur.map Trap.id)) ∧
      ((prev.map Trap.id).Nodup → (cur.map Trap.id).Nodup →
        codeTrapListChanged prev cur = specSetChanged prev cur) ∧
      (prev ≠ [] →
        (eventsOf (async_update_data (some prev) (Except.ok cur)) ≠ [] ↔
          codeTrapListChanged prev cur = true)) := by
  refine ⟨?_, ?_, ?_⟩
  · rw [codeTrapListChanged]
    simp only [decide_eq_false_iff_not, not_not]
    exact pySorted_eq_iff_perm _ _
  · intro hp hc
    rw [codeTrapListChanged, specSetChanged]
    by_cases h : pySorted (prev.map Trap.id) = pySorted (cur.map Trap.id)
    · have hperm := (pySorted_eq_iff_perm _ _).mp h
      have : (prev.map Trap.id).toFinset = (cur.map Trap.id).toFinset :=
        List.toFinset_eq_of_perm _ _ hperm
      simp [h, this]
    · have : ¬ (prev.map Trap.id).toFinset = (cur.map Trap.id).toFinset := by
        intro heq
        exact h ((pySorted_eq_iff_perm _ _).mpr
          (List.perm_of_nodup_nodup_toFinset_eq hp hc heq))
      simp [h, this]
  · intro hne
    have hfalsy : dataFalsy (some prev) = false := by
      cases prev with
      | nil => exact absurd rfl hne
      | cons a l => simp [dataFalsy]
    rw [codeTrapListChanged]
    simp only [async_update_data, get_traps, hfalsy, if_false,
      Bool.false_eq_true, Option.getD_some]
    by_cases h : pySorted (prev.map Trap.id) = pySorted (cur.map Trap.id)
    · simp [h, eventsOf]
    · simp [h, eventsOf]

/-- Witness for C6 amended at concrete inputs `[sampleTrap]` and
`[sampleTrap2]` (duplicate-free ids 1 and 2): the code test agrees with the
set test there and the event fires. -/
theorem sorted_comparison_is_multiset_test_witness :
    codeTrapListChanged [sampleTrap] [sampleTrap2] =
        specSetChanged [sampleTrap] [sampleTrap2] ∧
      eventsOf (async_update_data (some [sampleTrap])
        (Except.ok [sampleTrap2])) ≠ [] := by
  obtain ⟨h1, h2, h3⟩ := sorted_comparison_is_multiset_test [sampleTrap] [sampleTrap2]
  exact ⟨h2 (by decide) (by decide),
    (h3 (by simp)).mpr (by decide)⟩

/-- Modelled from the spec: `DOMAIN` of the integration, declared in
`const.py` which is not among the provided sources. -/
def DOMAIN : String := "victorsmartkill"

/-- Modelled from the spec: `MANUFACTURER`, declared in `const.py` which is
not among the provided sources; no claim depends on its value. -/
def MANUFACTURER : String := "Victor"

/-- `ATTR_BATTERY_LEVEL` from the host framework constants. -/
def ATTR_BATTERY_LEVEL : String := "battery_level"

/-- Modelled from the spec: `ATTR_SSID` from `const.py` (not provided). -/
def ATTR_SSID : String := "ssid"

/-- `ATTR_LATITUDE` from the host framework constants. -/
def ATTR_LATITUDE : String := "latitude"

/-- `ATTR_LONGITUDE` from the host framework constants. -/
def ATTR_LONGITUDE : String := "longitude"

/-- Modelled from the spec: `ATTR_LAST_REPORT_DATE` from `const.py`. -/
def ATTR_LAST_REPORT_DATE : String := "last_report_date"

/-- Modelled from the spec: `ATTR_LAST_KILL_DATE` from `const.py`. -/
def ATTR_LAST_KILL_DATE : String := "last_kill_date"

/-- `homeassistant.util.dt.as_local`: a pure timezone re-presentation of an
instant; on epoch instants it is the identity. -/
def as_local (t : Int) : Int := t

/-- A value stored in an entity attribute dictionary. -/
inductive AttrValue where
  | intVal (i : Int)
  | strVal (s : String)
  deriving DecidableEq, Repr

/-- Python `del d[key]` on a string-keyed dictionary modelled as an
association list: removes the binding of `key`. -/
def pyDictDelete (d : List (String × AttrValue)) (key : String) :
    List (String × AttrValue) :=
  d.filter (fun kv => kv.1 ≠ key)

/-- The `device_info` dictionary returned by the entity base class. -/
structure DeviceInfo where
  identifiers : List (String × Int × String)
  name : String
  model : String
  manufacturer : String
  sw_version : String
  deriving DecidableEq, Repr

namespace VictorSmartKillEntity

/-- The observable state an entity property can read or write: the entity's
own trap record (`self.trap`) and the coordinator's stored trap list. Each
property is embedded in state-passing style so that leaving the state
unchanged is a provable statement, not a modelling assumption. -/
structure State where
  trap : Trap
  coordinator_data : List Trap
  deriving DecidableEq, Repr

/-- `VictorSmartKillEntity._exclude_device_state_attributes`: the base class
excludes nothing (and `VictorSmartKillBinarySensor` does not override this
property — it overrides a differently named one, which the base never
reads). -/
def _exclude_device_state_attributes (s : State) : List String × State :=
  ([], s)

/-- `VictorSmartKillEntity.name`: `f"{self.trap.name} {self._name_suffix}"`,
parametrised by the subclass's `_name_suffix`. -/
def name (name_suffix : String) (s : State) : String × State :=
  (s.trap.name ++ " " ++ name_suffix, s)

/-- `VictorSmartKillEntity.unique_id`:
`f"{DOMAIN}_{self.trap.id}_{self._unique_id_suffix}"`. -/
def unique_id (unique_id_suffix : String) (s : State) : String × State :=
  (DOMAIN ++ "_" ++ toString s.trap.id ++ "_" ++ unique_id_suffix, s)

/-- `VictorSmartKillEntity.device_info`. -/
def device_info (s : State) : DeviceInfo × State :=
  ({ identifiers := [(DOMAIN, s.trap.id, s.trap.serial_number)]
     name := s.trap.name
     model := s.trap.trap_type_verbose ++ " (" ++
       s.trap.trapstatistics.board_type ++ ")"
     manufacturer := MANUFACTURER
     sw_version := s.trap.trapstatistics.firmware_version }, s)

/-- `VictorSmartKillEntity.device_state_attributes`: builds the attribute
dictionary from the trap's fields, then deletes the keys listed by
`_exclude_device_state_attributes` (a local-dictionary operation). -/
def device_state_attributes (s : State) : List (String × AttrValue) × State :=
  let state_attributes : List (String × AttrValue) :=
    [(ATTR_BATTERY_LEVEL, AttrValue.intVal s.trap.trapstatistics.battery_level),
     (ATTR_SSID, AttrValue.strVal s.trap.ssid),
     (ATTR_LATITUDE, AttrValue.intVal s.trap.lat),
     (ATTR_LONGITUDE, AttrValue.intVal s.trap.long),
     (ATTR_LAST_REPORT_DATE,
       AttrValue.intVal (as_local s.trap.trapstatistics.last_report_date)),
     (ATTR_LAST_KILL_DATE,
       AttrValue.intVal (as_local s.trap.trapstatistics.last_kill_date))]
  let excluded := _exclude_device_state_attributes s
  (excluded.1.foldl pyDictDelete state_attributes, excluded.2)

/-- Exceptions `VictorSmartKillEntity.__init__` can raise: `StopIteration`
escaping from `next(...)`, or the explicit `ValueError`. -/
inductive InitError where
  | stopIteration
  | valueError (msg : String)
  deriving DecidableEq, Repr

/-- Python truthiness of a `Trap` instance in `if not trap:`: `Trap`
defines neither `__bool__` nor `__len__`, so every instance is truthy. -/
def trapTruthy (_ : Trap) : Bool := true

/-- `VictorSmartKillEntity.__init__`:
`trap = next(t for t in coordinator.data if t.id == trap_id)` raises
`StopIteration` when no trap matches; otherwise the `if not trap:` guard
may raise `ValueError`, else `self.trap` is set to the found trap. -/
def init (trap_id : Int) (coordinator_data : List Trap) :
    Except InitError Trap :=
  match coordinator_data.find? (fun t => t.id == trap_id) with
  | none => Except.error InitError.stopIteration
  | some trap =>
    if ¬ trapTruthy trap then
      Except.error (InitError.valueError "Trap not found in list of traps.")
    else
      Except.ok trap

end VictorSmartKillEntity

namespace VictorSmartKillBinarySensor

/-- `VictorSmartKillBinarySensor._name_suffix`. -/
def _name_suffix : String := "capture"

/-- `VictorSmartKillBinarySensor._unique_id_suffix`. -/
def _unique_id_suffix : String := "capture"

/-- `VictorSmartKillBinarySensor.device_class`. -/
def device_class : String := "occupancy"

/-- `VictorSmartKillBinarySensor._exclude_extra_state_attributes` (note:
never read by the base class, which reads
`_exclude_device_state_attributes`). -/
def _exclude_extra_state_attributes : List String := [ATTR_LAST_KILL_DATE]

/-- The binary sensor's `name` property (base property with the sensor's
suffix). -/
def name (s : VictorSmartKillEntity.State) :
    String × VictorSmartKillEntity.State :=
  VictorSmartKillEntity.name _name_suffix s

/-- The binary sensor's `unique_id` property. -/
def unique_id (s : VictorSmartKillEntity.State) :
    String × VictorSmartKillEntity.State :=
  VictorSmartKillEntity.unique_id _unique_id_suffix s

/-- `VictorSmartKillBinarySensor.is_on`:
`self.trap.trapstatistics.kills_present > 0`. -/
def is_on (s : VictorSmartKillEntity.State) :
    Bool × VictorSmartKillEntity.State :=
  (decide (s.trap.trapstatistics.kills_present > 0), s)

end VictorSmartKillBinarySensor

/-- C7: the binary sensor's `is_on` is true exactly when the trap's
`trapstatistics.kills_present` is positive. -/
theorem is_on_iff_kills_present (trap : Trap) (cdata : List Trap) :
    (VictorSmartKillBinarySensor.is_on ⟨trap, cdata⟩).1 = true ↔
      trap.trapstatistics.kills_present > 0 := by
  simp [VictorSmartKillBinarySensor.is_on]

/-- C8: the entity properties are read-only views: evaluating `name`,
`unique_id`, `device_info`, `device_state_attributes` or `is_on` leaves the
entity's trap record and the coordinator's stored trap list unchanged. -/
theorem entity_properties_readonly (s : VictorSmartKillEntity.State) :
    (VictorSmartKillBinarySensor.name s).2 = s ∧
      (VictorSmartKillBinarySensor.unique_id s).2 = s ∧
      (VictorSmartKillEntity.device_info s).2 = s ∧
      (VictorSmartKillEntity.device_state_attributes s).2 = s ∧
      (VictorSmartKillBinarySensor.is_on s).2 = s :=
  ⟨rfl, rfl, rfl, rfl, rfl⟩

/-- `find?` returns the first element satisfying the predicate: the list
splits as `pre ++ t :: post` with nothing in `pre` satisfying it (shared
helper). -/
lemma find?_first_decomp (p : Trap → Bool) (l : List Trap) (t : Trap)
    (h : l.find? p = some t) :
    ∃ pre post, l = pre ++ t :: post ∧ p t = true ∧
      ∀ u ∈ pre, p u = false := by
  induction l with
  | nil => simp at h
  | cons a l ih =>
    by_cases hpa : p a
    · rw [List.find?_cons_of_pos _ hpa] at h
      obtain rfl : a = t := by injection h
      exact ⟨[], l, rfl, hpa, by simp⟩
    · rw [List.find?_cons_of_neg _ (by simpa using hpa)] at h
      obtain ⟨pre, post, heq, hpt, hpre⟩ := ih h
      refine ⟨a :: pre, post, by rw [heq]; rfl, hpt, ?_⟩
      intro u hu
      rcases List.mem_cons.mp hu with hu | hu
      · subst hu; exact Bool.not_eq_true _ ▸ (by simpa using hpa)
      · exact hpre u hu

/-- C9: the entity constructor takes the first trap whose id matches; when
no trap matches it raises `StopIteration` out of `next`, and the explicit
`ValueError` branch can never be reached. -/
theorem entity_init_first_match_or_stop (trap_id : Int) (data : List Trap) :
    ((∃ t ∈ data, t.id = trap_id) →
      ∃ pre t post, data = pre ++ t :: post ∧ t.id = trap_id ∧
        (∀ u ∈ pre, u.id ≠ trap_id) ∧
        VictorSmartKillEntity.init trap_id data = Except.ok t) ∧
    ((∀ t ∈ data, t.id ≠ trap_id) →
      VictorSmartKillEntity.init trap_id data =
        Except.error VictorSmartKillEntity.InitError.stopIteration) ∧
    (∀ msg, VictorSmartKillEntity.init trap_id data ≠
      Except.error (VictorSmartKillEntity.InitError.valueError msg)) := by
  refine ⟨?_, ?_, ?_⟩
  · intro ⟨t0, ht0mem, ht0id⟩
    have hsome : (data.find? (fun t => t.id == trap_id)).isSome := by
      rw [List.find?_isSome]
      exact ⟨t0, ht0mem, by simpa using ht0id⟩
    obtain ⟨t, hfind⟩ := Option.isSome_iff_exists.mp hsome
    obtain ⟨pre, post, heq, hpt, hpre⟩ := find?_first_decomp _ _ _ hfind
    refine ⟨pre, t, post, heq, by simpa using hpt, ?_, ?_⟩
    · intro u hu
      have := hpre u hu
      simpa using this
    · rw [VictorSmartKillEntity.init, hfind]
      simp [VictorSmartKillEntity.trapTruthy]
  · intro hnone
    have : data.find? (fun t => t.id == trap_id) = none := by
      rw [List.find?_eq_none]
      intro t ht
      simpa using hnone t ht
    rw [VictorSmartKillEntity.init, this]
  · intro msg
    rw [VictorSmartKillEntity.init]
    cases hfind : data.find? (fun t => t.id == trap_id) with
    | none => simp
    | some t => simp [VictorSmartKillEntity.trapTruthy]

/-- Witness for C9 at concrete inputs: with data `[sampleTrap]` the
constructor finds the trap for id 1 (first match), and raises
`StopIteration` for id 2. -/
theorem entity_init_first_match_or_stop_witness :
    (∃ pre t post, ([sampleTrap] : List Trap) = pre ++ t :: post ∧
      t.id = 1 ∧ (∀ u ∈ pre, u.id ≠ 1) ∧
      VictorSmartKillEntity.init 1 [sampleTrap] = Except.ok t) ∧
    VictorSmartKillEntity.init 2 [sampleTrap] =
      Except.error VictorSmartKillEntity.InitError.stopIteration := by
  refine ⟨(entity_init_first_match_or_stop 1 [sampleTrap]).1
      ⟨sampleTrap, by simp, by decide⟩,
    (entity_init_first_match_or_stop 2 [sampleTrap]).2.1 ?_⟩
  intro t ht
  have : t = sampleTrap := by simpa using ht
  subst this
  decide

/-- `SCAN_INTERVAL = timedelta(minutes=5)`, in seconds. -/
def SCAN_INTERVAL : Int := 5 * 60

/-- `VictorSmartKillDataUpdateCoordinator.__init__` passes the given update
interval to the host coordinator; the stored data starts out absent and
`last_update_success` starts out true. -/
def coordinator_init (update_interval : Int) : CoordinatorState :=
  { data := none, update_interval := update_interval,
    last_update_success := true }

/-- `async_setup_entry` constructs the coordinator with the constant
`SCAN_INTERVAL`. -/
def setup_entry_coordinator : CoordinatorState :=
  coordinator_init SCAN_INTERVAL

/-- A whole coordinator lifetime: the sequence of refresh cycles applied to
an initial state, each driven by the outcome of its API fetch. -/
def runUpdates (st : CoordinatorState)
    (fetches : List (Except ApiError (List Trap))) : CoordinatorState :=
  fetches.foldl (fun s f => (coordinatorStep s f).1) st

/-- One refresh cycle never changes the update interval (shared helper). -/
lemma coordinatorStep_interval (st : CoordinatorState)
    (f : Except ApiError (List Trap)) :
    ((coordinatorStep st f).1).update_interval = st.update_interval := by
  unfold coordinatorStep
  cases h : async_update_data st.data f with
  | ok r => cases r; rfl
  | error e => rfl

/-- C10: the coordinator is constructed with the constant scan interval of
five minutes (300 seconds), and no sequence of refresh cycles ever changes
the update interval. -/
theorem scan_interval_constant
    (fetches : List (Except ApiError (List Trap))) :
    SCAN_INTERVAL = 5 * 60 ∧
      setup_entry_coordinator.update_interval = SCAN_INTERVAL ∧
      (runUpdates setup_entry_coordinator fetches).update_interval =
        SCAN_INTERVAL := by
  refine ⟨rfl, rfl, ?_⟩
  suffices h : ∀ (fs : List (Except ApiError (List Trap)))
      (st : CoordinatorState),
      (runUpdates st fs).update_interval = st.update_interval by
    rw [h]
    rfl
  intro fs
  induction fs with
  | nil => intro st; rfl
  | cons f fs ih =>
    intro st
    show (runUpdates ((coordinatorStep st f).1) fs).update_interval =
      st.update_interval
    rw [ih ((coordinatorStep st f).1), coordinatorStep_interval]
